import Mathlib

/-!
# Verification of the oh-balls physics core against its specification

This file gives a shallow embedding, in Lean 4, of the parts of the
`oh-balls` repository that the frozen claims are about, and settles each
claim against the embedding.

Embedded modules (each in its own namespace, faithful to the source):

* `BallJs`      — `src/js/ball.js`: the `Ball` wrapper and the
  `BallManager` spawn/drop state machine and off-screen cleanup.
* `SceneJs`     — `src/js/scene.js`: the ball–ball `collisionStart`
  handler that clears `verticalDrop`.
* `Part011`     — `src/unnamed/part_011`: the collision-dampening layer
  (vertical-collision detection, the deferred post-collision cleanup,
  mass-imbalance dampening, and the precise `clampVelocities` variant).
* `Part006`     — `src/unnamed/part_006`: `enforceBoundaries`.
* `PhysicsJs`   — `src/js/physics.js`: the plain `clampVelocities`.
* `PlanckPhys`  — `src/unnamed/part_000`: the `PhysicsBodyFactory`.

Positions, velocities and timestamps are modelled as rationals (`ℚ`)
where the source uses only field operations and comparisons, and as
reals (`ℝ`) where the source computes a square root.
-/

/-! ## Definitions -/

namespace BallJs

/-- State of one game-level `Ball` (src/js/ball.js, class `Ball`).
The Matter.js body fields that the claims mention are inlined:
`isStatic` is the body's kinematic flag, `velX`/`velY` its linear
velocity, `angVel` its angular velocity. -/
structure BallState where
  size : Nat
  radius : ℚ
  mass : ℚ
  isCurrentBall : Bool
  isStatic : Bool
  velX : ℚ
  velY : ℚ
  angVel : ℚ
  posX : ℚ
  posY : ℚ
  deriving DecidableEq, Repr

/-- `Ball.calculateRadius`: `15 + (size - 1) * 3`. -/
def calculateRadius (size : Nat) : ℚ := 15 + ((size : ℚ) - 1) * 3

/-- `Ball.calculateMass`: mass equals the size category. -/
def calculateMass (size : Nat) : ℚ := (size : ℚ)

/-- The `Ball` constructor: the Matter body starts with zero velocity,
its angular velocity is explicitly set to `0`, and it is made static
exactly when it is the current (player-held) ball. -/
def mkBall (x y : ℚ) (size : Nat) (isCurrentBall : Bool) : BallState :=
  { size := size
    radius := calculateRadius size
    mass := calculateMass size
    isCurrentBall := isCurrentBall
    isStatic := isCurrentBall
    velX := 0
    velY := 0
    angVel := 0
    posX := x
    posY := y }

/-- `Ball.release`: if the ball is the current ball, switch it to
dynamic, zero its angular velocity and its linear velocity, and clear
the `isCurrentBall` flag; otherwise do nothing. -/
def release (b : BallState) : BallState :=
  if b.isCurrentBall then
    { b with
      isStatic := false
      angVel := 0
      velX := 0
      velY := 0
      isCurrentBall := false }
  else b

/-- State of the `BallManager` (src/js/ball.js). `currentBall` is the
index of the player-held ball inside `balls` (modelling the object
reference), `gameState` is the literal string field of the source. -/
structure ManagerState where
  balls : List BallState
  currentBall : Option Nat
  nextBallSize : Nat
  lastDropTime : ℚ
  nextSpawnTime : ℚ
  gameState : String

/-- The `BallManager` constructor state (the first random size is a
parameter, standing for `generateRandomSize()`). -/
def initialManager (firstSize : Nat) : ManagerState :=
  { balls := []
    currentBall := none
    nextBallSize := firstSize
    lastDropTime := 0
    nextSpawnTime := 0
    gameState := "ready" }

/-- `BallManager.spawnBall`, called at time `now` with the next draw of
`generateRandomSize()` supplied as `newRandomSize`: refuse if a current
ball exists; refuse while the state is `waiting` and the spawn time has
not been reached; otherwise create a static ball at `(512, 50)` with
the precomputed size, append it, point `currentBall` at it, draw the
next size and set the state to `ready`. -/
def spawnBall (now : ℚ) (newRandomSize : Nat) (s : ManagerState) : ManagerState :=
  if s.currentBall.isSome then s
  else if s.gameState = "waiting" ∧ now < s.nextSpawnTime then s
  else
    { s with
      balls := s.balls ++ [mkBall 512 50 s.nextBallSize true]
      currentBall := some s.balls.length
      nextBallSize := newRandomSize
      gameState := "ready" }

/-- `BallManager.dropCurrentBall` at time `now`: no-op without a
current ball or outside the `ready` state; otherwise release the
current ball, record the drop time, set the next spawn time 2000 ms
later, clear the current-ball reference and enter the `waiting`
state. -/
def dropCurrentBall (now : ℚ) (s : ManagerState) : ManagerState :=
  match s.currentBall with
  | none => s
  | some i =>
    if s.gameState ≠ "ready" then s
    else
      { s with
        balls := s.balls.set i (release (s.balls.getD i (mkBall 512 50 1 true)))
        lastDropTime := now
        nextSpawnTime := now + 2000
        currentBall := none
        gameState := "waiting" }

/-- One externally triggered manager call: a spawn attempt (carrying
the clock reading and the next random size) or a drop attempt. -/
inductive MOp where
  | spawn (now : ℚ) (newRandomSize : Nat)
  | drop (now : ℚ)

/-- Apply one call to the manager state. -/
def applyOp (s : ManagerState) : MOp → ManagerState
  | .spawn now sz => spawnBall now sz s
  | .drop now => dropCurrentBall now s

/-- Run a sequence of `spawnBall`/`dropCurrentBall` calls. -/
def runOps (s : ManagerState) : List MOp → ManagerState :=
  List.foldl applyOp s

/-- The inductive invariant: any ball in the list that is flagged as
the current ball is the one `currentBall` points at, and it is
kinematic. -/
def currentInv (s : ManagerState) : Prop :=
  ∀ j (h : j < s.balls.length),
    (s.balls.get ⟨j, h⟩).isCurrentBall = true →
      s.currentBall = some j ∧ (s.balls.get ⟨j, h⟩).isStatic = true

/-! ### Off-screen cleanup (src/js/ball.js, `BallManager.cleanup`)

A tracked ball carries a numeric `id` modelling JavaScript object
identity (the source keys `offScreenBalls` by the ball object itself)
and the position its body has when `cleanup` reads it. -/

/-- A ball as seen by `cleanup`: its identity and current position. -/
structure TrackedBall where
  id : Nat
  posX : ℚ
  posY : ℚ
  deriving DecidableEq, Repr

/-- `gracePeriod = 3000` ms. -/
def gracePeriod : ℚ := 3000

/-- `canvasWidth = 1024`. -/
def canvasWidth : ℚ := 1024

/-- `canvasHeight = 768`. -/
def canvasHeight : ℚ := 768

/-- `maxOffScreenDistance = 200`. -/
def maxOffScreenDistance : ℚ := 200

/-- The `isOffScreen` test of `cleanup`. -/
def isOffScreen (x y : ℚ) : Bool :=
  decide (y > canvasHeight + maxOffScreenDistance) ||
  decide (x < -maxOffScreenDistance) ||
  decide (x > canvasWidth + maxOffScreenDistance) ||
  decide (y < -maxOffScreenDistance)

/-- Manager state relevant to `cleanup`: the ball list, the
`offScreenBalls` map (ball identity to the time it was first seen
off-screen) and the list of bodies destroyed (removed from the
world). -/
structure CleanupState where
  balls : List TrackedBall
  offScreenBalls : List (Nat × ℚ)
  destroyed : List Nat

/-- Outcome of the filter body for one ball: whether the ball is kept,
and its `offScreenBalls` entry afterwards. -/
structure CleanOutcome where
  keep : Bool
  entry : Option ℚ
  deriving DecidableEq, Repr

/-- The body of the `cleanup` filter for one ball, given the clock
`now`, the ball's current map entry, and its position: an off-screen
ball is first registered with timestamp `now` and kept; it is dropped
(destroyed) only when its registered time is more than `gracePeriod`
in the past; an on-screen ball is kept and its entry deleted. -/
def cleanupBallStep (now : ℚ) (entry : Option ℚ) (x y : ℚ) : CleanOutcome :=
  if isOffScreen x y then
    match entry with
    | none => ⟨true, some now⟩
    | some t0 => if now - t0 > gracePeriod then ⟨false, none⟩ else ⟨true, some t0⟩
  else ⟨true, none⟩

/-- Store `v` as the entry of key `k` (deleting the key when `v` is
`none`). -/
def setEntry (m : List (Nat × ℚ)) (k : Nat) : Option ℚ → List (Nat × ℚ)
  | none => m.filter fun p => p.1 != k
  | some t => (k, t) :: m.filter fun p => p.1 != k

/-- `BallManager.cleanup` at clock reading `now`. The source filters
the ball list while mutating the live `offScreenBalls` map, but each
iteration reads and writes only its own ball's key, and distinct balls
are distinct map keys, so the sequential mutation is equivalent to
this form where every decision reads the pre-call map. -/
def cleanup (now : ℚ) (s : CleanupState) : CleanupState :=
  { balls := s.balls.filter fun b =>
      (cleanupBallStep now (s.offScreenBalls.lookup b.id) b.posX b.posY).keep
    offScreenBalls := s.balls.foldl
      (fun m b => setEntry m b.id
        (cleanupBallStep now (s.offScreenBalls.lookup b.id) b.posX b.posY).entry)
      s.offScreenBalls
    destroyed := s.destroyed ++
      (s.balls.filter fun b =>
        !(cleanupBallStep now (s.offScreenBalls.lookup b.id) b.posX b.posY).keep).map
        TrackedBall.id }

end BallJs

namespace SceneJs

/-! ### Ball–ball collision handler
(src/js/scene.js, `SceneManager.setupEventsBallBallCollision`) -/

/-- A Matter body as the handler sees it: its `label` and the identity
of the `ballInstance` back-reference (the owning game-level ball). -/
structure EvtBody where
  label : String
  owner : Nat
  deriving DecidableEq, Repr

/-- One entry of `event.pairs`. -/
structure EvtPair where
  bodyA : EvtBody
  bodyB : EvtBody
  deriving DecidableEq, Repr

/-- The per-pair body of the handler, acting on the `verticalDrop`
flags of the ball instances (indexed by owner identity): when both
bodies are labeled `ball`, set `verticalDrop` of both owners to
`false`; otherwise change nothing. -/
def processBallBallPair (vd : Nat → Bool) (p : EvtPair) : Nat → Bool :=
  if p.bodyA.label = "ball" ∧ p.bodyB.label = "ball" then
    fun i => if i = p.bodyA.owner ∨ i = p.bodyB.owner then false else vd i
  else vd

/-- The `collisionStart` handler: process every pair of the event in
order. -/
def ballBallCollisionStart (vd : Nat → Bool) (pairs : List EvtPair) : Nat → Bool :=
  pairs.foldl processBallBallPair vd

end SceneJs

namespace PlanckPhys

/-! ### Physics body factory (src/unnamed/part_000, `PhysicsBodyFactory`)

`createCircle`/`createRectangle` throw when the static `world`
reference has not been set; fallible creation is modelled with
`Except`. -/

/-- The Planck world handle (contents irrelevant to the claim). -/
structure PlanckWorld where
  gravityX : ℚ
  gravityY : ℚ
  deriving DecidableEq, Repr

/-- The options bag accepted by the factory methods. -/
structure BodyOptions where
  isStatic : Bool := false
  density : Option ℚ := none
  friction : Option ℚ := none
  restitution : Option ℚ := none
  label : Option String := none
  mass : Option ℚ := none
  deriving DecidableEq, Repr

/-- JavaScript `x || d` on a numeric option: the default is used when
the value is absent or `0` (falsy). -/
def jsOrNum (v : Option ℚ) (d : ℚ) : ℚ :=
  match v with
  | none => d
  | some x => if x = 0 then d else x

/-- JavaScript `x || d` on a string option: the default is used when
the value is absent or the empty string (falsy). -/
def jsOrStr (v : Option String) (d : String) : String :=
  match v with
  | none => d
  | some x => if x = "" then d else x

/-- The created body, with the fields the factory sets. The global
`idCounter` used for the userData id is mutable state orthogonal to
the fail-fast contract and is not modelled. `massOverride` records the
`setMassData` call made when `options.mass` is given (circles only);
the derived moment of inertia is `mass * radius² / 2`. -/
structure PhysicsBody where
  bodyType : String
  posX : ℚ
  posY : ℚ
  circleRadius : Option ℚ
  halfWidth : Option ℚ
  halfHeight : Option ℚ
  density : ℚ
  friction : ℚ
  restitution : ℚ
  label : String
  massOverride : Option ℚ
  inertiaOverride : Option ℚ
  deriving DecidableEq, Repr

/-- The error message thrown when the world is unset. -/
def worldNotSetMsg : String :=
  "World not set. Call PhysicsBodyFactory.setWorld(world) first."

/-- `PhysicsBodyFactory.createCircle`: throws if `world` is unset,
otherwise builds a circle body with the option defaults of the
source. -/
def createCircle (world : Option PlanckWorld) (x y radius : ℚ)
    (options : BodyOptions) : Except String PhysicsBody :=
  match world with
  | none => Except.error worldNotSetMsg
  | some _ =>
    Except.ok
      { bodyType := if options.isStatic then "static" else "dynamic"
        posX := x
        posY := y
        circleRadius := some radius
        halfWidth := none
        halfHeight := none
        density := jsOrNum options.density 1
        friction := jsOrNum options.friction (3 / 10)
        restitution := jsOrNum options.restitution (1 / 10)
        label := jsOrStr options.label "circle"
        massOverride := options.mass
        inertiaOverride := options.mass.map fun m => m * radius * radius / 2 }

/-- `PhysicsBodyFactory.createRectangle`: throws if `world` is unset,
otherwise builds a box body with the option defaults of the source. -/
def createRectangle (world : Option PlanckWorld) (x y width height : ℚ)
    (options : BodyOptions) : Except String PhysicsBody :=
  match world with
  | none => Except.error worldNotSetMsg
  | some _ =>
    Except.ok
      { bodyType := if options.isStatic then "static" else "dynamic"
        posX := x
        posY := y
        circleRadius := none
        halfWidth := some (width / 2)
        halfHeight := some (height / 2)
        density := jsOrNum options.density 1
        friction := jsOrNum options.friction (3 / 10)
        restitution := jsOrNum options.restitution (1 / 10)
        label := jsOrStr options.label "rectangle"
        massOverride := none
        inertiaOverride := none }

end PlanckPhys

namespace Part011

/-! ### Collision dampening (src/unnamed/part_011,
`PhysicsEngine.setupCollisionDampening`) -/

/-- A Matter body as the `collisionStart` handler sees it: label and
current velocity (only the ball's velocity is ever read or written;
boundary bodies are static). -/
structure CollBody where
  label : String
  velX : ℚ
  velY : ℚ
  deriving DecidableEq, Repr

/-- `isVerticalCollision`: the pre-collision horizontal speed is
smaller than `max(1.0, 0.1 × vertical speed)`. -/
def isVerticalCollision (velX velY : ℚ) : Bool :=
  |velX| < max 1 (|velY| * (1 / 10))

/-- The immediate action on the ball body when a ball–ground pair is
detected: if the collision is classified vertical, zero the horizontal
velocity, preserving the vertical component. -/
def applyVerticalZero (b : CollBody) : CollBody :=
  if isVerticalCollision b.velX b.velY then { b with velX := 0 } else b

/-- The `collisionStart` handler body of `setupCollisionDampening` for
one pair: pick the body labeled `ball` (A first, then B) and the body
labeled `ground` (A first, then B); when both are present, apply the
vertical-collision zeroing to the ball; otherwise do nothing. -/
def collisionStartPair (bodyA bodyB : CollBody) : CollBody × CollBody :=
  if bodyA.label = "ground" ∨ bodyB.label = "ground" then
    if bodyA.label = "ball" then (applyVerticalZero bodyA, bodyB)
    else if bodyB.label = "ball" then (bodyA, applyVerticalZero bodyB)
    else (bodyA, bodyB)
  else (bodyA, bodyB)

/-- The deferred post-collision cleanup (the `setTimeout` body of
`setupCollisionDampening`), as a function of the captured
pre-collision velocity `(preVX, preVY)`, the classification computed
at contact start, and the solver-resolved velocity
`(postVX, postVY)` and angular velocity `postAng` read when the
callback runs. Returns the final `(velX, velY, angVel)`. -/
def deferredCleanup (preVX : ℚ) (isVert : Bool)
    (postVX postVY postAng : ℚ) : ℚ × ℚ × ℚ :=
  let preHorizontalSpeed := |preVX|
  let postHorizontalSpeed := |postVX|
  let v1 : ℚ × ℚ :=
    if isVert = true ∧ |postVX| > 1 / 1000 then (0, postVY) else (postVX, postVY)
  let a1 : ℚ := if isVert = true ∧ |postAng| > 1 / 1000 then 0 else postAng
  let shouldCancelSpin : Bool :=
    if preHorizontalSpeed < 1 / 1000 then true
    else if preHorizontalSpeed < 8 / 10 then true
    else false
  let a2 : ℚ := if |postAng| > 1 / 1000 ∧ shouldCancelSpin = true then 0 else a1
  let v2 : ℚ × ℚ :=
    if preHorizontalSpeed < 1 / 1000 ∧ postHorizontalSpeed > 1 / 10 then (0, postVY)
    else v1
  (v2.1, v2.2, a2)

end Part011

namespace Part006

/-! ### Boundary enforcement (src/unnamed/part_006,
`PhysicsEngine.enforceBoundaries`)

`update()` runs the solver step, then `enforceBoundaries`, then
`stabilizeBodies` and `manageSleepingBodies`, neither of which writes
positions — so the position of a ball after `update()` is the position
`enforceBoundaries` leaves it at. -/

/-- `wallThickness = 17`. -/
def wallThickness : ℚ := 17

/-- `width = 1024`. -/
def width : ℚ := 1024

/-- `height = 768`. -/
def height : ℚ := 768

/-- `tolerance = 2`: corrections fire only when the ball is outside
the bounds by more than this, "to avoid micro-corrections". -/
def tolerance : ℚ := 2

/-- A dynamic ball body as `enforceBoundaries` sees it. -/
structure BodyState where
  posX : ℚ
  posY : ℚ
  velX : ℚ
  velY : ℚ
  radius : ℚ
  sleeping : Bool
  deriving DecidableEq, Repr

/-- The per-ball body of `enforceBoundaries`: clamp the position to
the boundary surface when the circle is outside a wall or the floor by
more than `tolerance`, and on any correction halve the velocity and
force sleep when the pre-correction speed was below `0.1`
(`sqrt(vx² + vy²) < 0.1` in the source, equivalently
`vx² + vy² < 0.01`; the source reads the velocity object captured
before the damping write). -/
def enforceBoundariesBody (b : BodyState) : BodyState :=
  let newX1 := if b.posX - b.radius < wallThickness - tolerance
    then wallThickness + b.radius else b.posX
  let newX2 := if b.posX + b.radius > width - wallThickness + tolerance
    then width - wallThickness - b.radius else newX1
  let newY1 := if b.posY + b.radius > height - wallThickness + tolerance
    then height - wallThickness - b.radius else b.posY
  if b.posX - b.radius < wallThickness - tolerance ∨
     b.posX + b.radius > width - wallThickness + tolerance ∨
     b.posY + b.radius > height - wallThickness + tolerance then
    { b with
      posX := newX2
      posY := newY1
      velX := b.velX * (1 / 2)
      velY := b.velY * (1 / 2)
      sleeping := if b.velX * b.velX + b.velY * b.velY < (1 / 10) * (1 / 10)
        then true else b.sleeping }
  else b

end Part006

namespace PhysicsJs

/-! ### Velocity clamping (src/js/physics.js,
`PhysicsEngine.clampVelocities`)

Velocities here are reals because the source computes a square root.
The per-ball action of `clampVelocities` with `maxVelocity = 30`:
when the squared magnitude exceeds `maxVelocity²`, scale the velocity
by `maxVelocity / magnitude`; otherwise leave it alone. -/

/-- `clampVelocities` (per dynamic ball), `maxVelocity = 30`. -/
noncomputable def clampVelocities (vx vy : ℝ) : ℝ × ℝ :=
  if vx * vx + vy * vy > 30 * 30 then
    (vx * (30 / Real.sqrt (vx * vx + vy * vy)),
     vy * (30 / Real.sqrt (vx * vx + vy * vy)))
  else (vx, vy)

end PhysicsJs

namespace Part011

/-! ### Mass-imbalance dampening and the precise velocity clamp
(src/unnamed/part_011, `handleMassImbalancedCollisions` and
`clampVelocities`) -/

/-- `handleMassImbalancedCollisions` (per dynamic ball, run after each
physics step): if the speed exceeds 18, scale the velocity by the
dampening factor `0.9`. -/
noncomputable def handleMassImbalancedVel (vx vy : ℝ) : ℝ × ℝ :=
  if Real.sqrt (vx * vx + vy * vy) > 18 then
    (vx * (9 / 10), vy * (9 / 10))
  else (vx, vy)

/-- `clampVelocities` of part_011 (per dynamic ball), acting on
`(velX, velY, angVel)`: `maxVelocity = 20`, `restThreshold = 0.01`.
A positive squared magnitude below `restThreshold²` is zeroed
outright; angular velocity is zeroed when it is small and the ball is
also at linear rest; otherwise (else-if) a squared magnitude above
`maxVelocity²` is scaled down to `maxVelocity` (the scale multiplies
the velocity captured at the top of the iteration, which the rest
branch cannot have modified since the two conditions are disjoint). -/
noncomputable def clampVelocitiesPrecise (vx vy angVel : ℝ) : ℝ × ℝ × ℝ :=
  let magSq := vx * vx + vy * vy
  let v1 : ℝ × ℝ :=
    if 0 < magSq ∧ magSq < (1 / 100) * (1 / 100) then (0, 0) else (vx, vy)
  if 0 < |angVel| ∧ |angVel| < 1 / 100 ∧ magSq < (1 / 100) * (1 / 100) then
    (v1.1, v1.2, 0)
  else if magSq > 20 * 20 then
    (vx * (20 / Real.sqrt magSq), vy * (20 / Real.sqrt magSq), angVel)
  else (v1.1, v1.2, angVel)

end Part011

/-! ## Theorems -/

namespace BallJs

theorem release_not_current (b : BallState) : (release b).isCurrentBall = false := by
  unfold release
  by_cases h : b.isCurrentBall <;> simp [h]

theorem currentInv_spawn (s : ManagerState) (now : ℚ) (sz : Nat)
    (hs : currentInv s) : currentInv (spawnBall now sz s) := by
  unfold spawnBall
  by_cases h1 : s.currentBall.isSome
  · simpa [h1] using hs
  · by_cases h2 : s.gameState = "waiting" ∧ now < s.nextSpawnTime
    · simpa [h1, h2] using hs
    · simp only [h1, h2, if_false, if_true, Bool.false_eq_true]
      intro j hj hcur
      have hnone : s.currentBall = none := by
        cases hcb : s.currentBall with
        | none => rfl
        | some i => rw [hcb] at h1; simp at h1
      simp only [List.length_append, List.length_cons, List.length_nil] at hj
      by_cases hjlen : j < s.balls.length
      · -- an old ball: it cannot be current, since `currentBall = none`
        have hget : ((s.balls ++ [mkBall 512 50 s.nextBallSize true]).get
            ⟨j, by simpa using hj⟩) = s.balls.get ⟨j, hjlen⟩ := by
          simp [List.getElem_append_left, hjlen]
        rw [hget] at hcur
        have := (hs j hjlen hcur).1
        rw [hnone] at this
        exact absurd this (by simp)
      · -- the freshly appended ball
        have hj' : j = s.balls.length := by omega
        subst hj'
        have hget : ((s.balls ++ [mkBall 512 50 s.nextBallSize true]).get
            ⟨s.balls.length, by simp⟩) = mkBall 512 50 s.nextBallSize true := by
          simp
        rw [hget]
        exact ⟨rfl, rfl⟩

theorem currentInv_drop (s : ManagerState) (now : ℚ)
    (hs : currentInv s) : currentInv (dropCurrentBall now s) := by
  unfold dropCurrentBall
  cases hcb : s.currentBall with
  | none => exact hs
  | some i =>
    by_cases hg : s.gameState ≠ "ready"
    · simpa [hg] using hs
    · simp only [hg, if_false, ite_false]
      intro j hj hcur
      simp only [List.length_set] at hj
      by_cases hji : j = i
      · subst hji
        have hget : ((s.balls.set j
            (release (s.balls.getD j (mkBall 512 50 1 true)))).get ⟨j, by simpa using hj⟩)
            = release (s.balls.getD j (mkBall 512 50 1 true)) := by
          simp [List.getElem_set_self]
        rw [hget] at hcur
        rw [release_not_current] at hcur
        exact absurd hcur (by simp)
      · have hget : ((s.balls.set i
            (release (s.balls.getD i (mkBall 512 50 1 true)))).get ⟨j, by simpa using hj⟩)
            = s.balls.get ⟨j, by simpa using hj⟩ := by
          simp [List.getElem_set_ne (Ne.symm hji)]
        rw [hget] at hcur
        have := (hs j (by simpa using hj) hcur).1
        rw [hcb] at this
        simp only [Option.some.injEq] at this
        exact absurd this.symm hji

theorem currentInv_runOps (firstSize : Nat) (ops : List MOp) :
    currentInv (runOps (initialManager firstSize) ops) := by
  have hbase : currentInv (initialManager firstSize) := by
    intro j hj
    simp [initialManager] at hj
  rw [runOps]
  induction ops generalizing firstSize with
  | nil => exact hbase
  | cons op rest ih =>
    rw [List.foldl_cons]
    have hstep : currentInv (applyOp (initialManager firstSize) op) := by
      cases op with
      | spawn now sz => exact currentInv_spawn _ now sz hbase
      | drop now => exact currentInv_drop _ now hbase
    clear hbase ih
    -- generalize: the invariant is preserved along any fold
    suffices hgen : ∀ (l : List MOp) (t : ManagerState), currentInv t →
        currentInv (List.foldl applyOp t l) by
      exact hgen rest _ hstep
    intro l
    induction l with
    | nil => intro t ht; exact ht
    | cons op2 rest2 ih2 =>
      intro t ht
      rw [List.foldl_cons]
      apply ih2
      cases op2 with
      | spawn now sz => exact currentInv_spawn _ now sz ht
      | drop now => exact currentInv_drop _ now ht

/-- C1: for every sequence of `spawnBall`/`dropCurrentBall` calls on a
`BallManager`, at most one kinematic current ball exists at any time
(any two current-flagged balls coincide, and a current ball is static),
and `spawnBall` is a no-op while a current ball exists or while the
spawn cooldown has not elapsed (the manager is waiting and the clock
has not reached `nextSpawnTime`). -/
theorem singleCurrentBallInvariant :
    (∀ (firstSize : Nat) (ops : List MOp) (j k : Nat)
        (hj : j < (runOps (initialManager firstSize) ops).balls.length)
        (hk : k < (runOps (initialManager firstSize) ops).balls.length),
      ((runOps (initialManager firstSize) ops).balls.get ⟨j, hj⟩).isCurrentBall = true →
      ((runOps (initialManager firstSize) ops).balls.get ⟨k, hk⟩).isCurrentBall = true →
        j = k ∧ ((runOps (initialManager firstSize) ops).balls.get ⟨j, hj⟩).isStatic = true) ∧
    (∀ (s : ManagerState) (now : ℚ) (sz : Nat),
      s.currentBall.isSome → spawnBall now sz s = s) ∧
    (∀ (s : ManagerState) (now : ℚ) (sz : Nat),
      s.gameState = "waiting" → now < s.nextSpawnTime → spawnBall now sz s = s) := by
  refine ⟨?_, ?_, ?_⟩
  · intro firstSize ops j k hj hk hcj hck
    have hinv := currentInv_runOps firstSize ops
    have h1 := hinv j hj hcj
    have h2 := hinv k hk hck
    refine ⟨?_, h1.2⟩
    have := h1.1.symm.trans h2.1
    simpa using this
  · intro s now sz h
    unfold spawnBall
    simp [h]
  · intro s now sz hw ht
    unfold spawnBall
    by_cases h1 : s.currentBall.isSome
    · simp [h1]
    · simp [h1, hw, ht]

/-- Witness for C1 at concrete runs: after a single spawn at t = 0 the
invariant applies to the held ball; a second spawn with a current ball
present is a no-op; a spawn at t = 2 right after a drop at t = 1
(cooldown until t = 2001) is a no-op. -/
theorem singleCurrentBallInvariant_witness :
    (((runOps (initialManager 3) [MOp.spawn 0 2]).balls.get
        ⟨0, by decide⟩).isCurrentBall = true ∧
      ((0 : Nat) = 0 ∧
        ((runOps (initialManager 3) [MOp.spawn 0 2]).balls.get
          ⟨0, by decide⟩).isStatic = true)) ∧
    ((spawnBall 0 2 (initialManager 3)).currentBall.isSome = true ∧
      spawnBall 5 7 (spawnBall 0 2 (initialManager 3)) = spawnBall 0 2 (initialManager 3)) ∧
    ((dropCurrentBall 1 (spawnBall 0 2 (initialManager 3))).gameState = "waiting" ∧
      (2 : ℚ) < (dropCurrentBall 1 (spawnBall 0 2 (initialManager 3))).nextSpawnTime ∧
      spawnBall 2 4 (dropCurrentBall 1 (spawnBall 0 2 (initialManager 3))) =
        dropCurrentBall 1 (spawnBall 0 2 (initialManager 3))) :=
  ⟨⟨by decide,
    singleCurrentBallInvariant.1 3 [MOp.spawn 0 2] 0 0 (by decide) (by decide)
      (by decide) (by decide)⟩,
   ⟨by decide, singleCurrentBallInvariant.2.1 _ 5 7 (by decide)⟩,
   ⟨by decide, by simp [dropCurrentBall, spawnBall, initialManager]; norm_num,
    singleCurrentBallInvariant.2.2 _ 2 4 (by decide)
      (by simp [dropCurrentBall, spawnBall, initialManager]; norm_num)⟩⟩

/-- C2: a successful `dropCurrentBall()` (a current ball exists and the
manager is `ready`) leaves the released ball with velocity exactly
`(0, 0)`, angular velocity exactly `0` and kinematic flag `false`, and
clears `currentBall`; without a current ball, `dropCurrentBall()` is a
no-op. -/
theorem dropReleaseClean :
    (∀ (s : ManagerState) (now : ℚ) (i : Nat) (hi : i < s.balls.length),
      s.currentBall = some i → s.gameState = "ready" →
      (s.balls.get ⟨i, hi⟩).isCurrentBall = true →
      ∃ h2 : i < (dropCurrentBall now s).balls.length,
        ((dropCurrentBall now s).balls.get ⟨i, h2⟩).velX = 0 ∧
        ((dropCurrentBall now s).balls.get ⟨i, h2⟩).velY = 0 ∧
        ((dropCurrentBall now s).balls.get ⟨i, h2⟩).angVel = 0 ∧
        ((dropCurrentBall now s).balls.get ⟨i, h2⟩).isStatic = false ∧
        (dropCurrentBall now s).currentBall = none) ∧
    (∀ (s : ManagerState) (now : ℚ),
      s.currentBall = none → dropCurrentBall now s = s) := by
  constructor
  · intro s now i hi hcb hg hcur
    unfold dropCurrentBall
    rw [hcb]
    dsimp only
    rw [if_neg (by simp [hg])]
    refine ⟨by simpa using hi, ?_⟩
    have hgetD : s.balls.getD i (mkBall 512 50 1 true) = s.balls[i] := by
      simp [hi]
    have hcur2 : (s.balls[i]).isCurrentBall = true := by
      simpa using hcur
    simp only [List.get_eq_getElem, List.getElem_set_self, hgetD]
    unfold release
    rw [hcur2]
    simp
  · intro s now hcb
    unfold dropCurrentBall
    rw [hcb]

/-- Witness for C2: drop the ball spawned at t = 0 and check the
released ball's state, plus the no-op case on the initial manager. -/
theorem dropReleaseClean_witness :
    ((spawnBall 0 2 (initialManager 3)).currentBall = some 0 ∧
      (spawnBall 0 2 (initialManager 3)).gameState = "ready" ∧
      ∃ h2 : 0 < (dropCurrentBall 1 (spawnBall 0 2 (initialManager 3))).balls.length,
        ((dropCurrentBall 1 (spawnBall 0 2 (initialManager 3))).balls.get
          ⟨0, h2⟩).velX = 0 ∧
        ((dropCurrentBall 1 (spawnBall 0 2 (initialManager 3))).balls.get
          ⟨0, h2⟩).velY = 0 ∧
        ((dropCurrentBall 1 (spawnBall 0 2 (initialManager 3))).balls.get
          ⟨0, h2⟩).angVel = 0 ∧
        ((dropCurrentBall 1 (spawnBall 0 2 (initialManager 3))).balls.get
          ⟨0, h2⟩).isStatic = false ∧
        (dropCurrentBall 1 (spawnBall 0 2 (initialManager 3))).currentBall = none) ∧
    dropCurrentBall 9 (initialManager 3) = initialManager 3 :=
  ⟨⟨by decide, by decide,
    dropReleaseClean.1 (spawnBall 0 2 (initialManager 3)) 1 0 (by decide)
      (by decide) (by decide) (by decide)⟩,
   dropReleaseClean.2 (initialManager 3) 9 (by decide)⟩

theorem lookup_filter_ne_self (m : List (Nat × ℚ)) (k : Nat) :
    (m.filter fun p => p.1 != k).lookup k = none := by
  induction m with
  | nil => rfl
  | cons p rest ih =>
    by_cases h : p.1 = k
    · simp [List.filter_cons, h, ih]
    · simp only [List.filter_cons]
      rw [if_pos (by simpa using h)]
      rw [List.lookup, show (k == p.1) = false by simpa using Ne.symm h]
      exact ih

theorem lookup_setEntry_self (m : List (Nat × ℚ)) (k : Nat) (v : Option ℚ) :
    (setEntry m k v).lookup k = v := by
  cases v with
  | none => exact lookup_filter_ne_self m k
  | some t => simp [setEntry, List.lookup]

theorem lookup_filter_ne_other (m : List (Nat × ℚ)) (k k2 : Nat) (h : k2 ≠ k) :
    (m.filter fun p => p.1 != k).lookup k2 = m.lookup k2 := by
  induction m with
  | nil => rfl
  | cons p rest ih =>
    by_cases hp : p.1 = k
    · rw [List.filter_cons, if_neg (by simpa using hp)]
      rw [ih, List.lookup, show (k2 == p.1) = false by simp [hp, h]]
    · rw [List.filter_cons, if_pos (by simpa using hp)]
      by_cases hk2 : k2 = p.1
      · rw [List.lookup, List.lookup, show (k2 == p.1) = true by simpa using hk2]
      · rw [List.lookup, List.lookup, show (k2 == p.1) = false by simpa using hk2, ih]

theorem lookup_setEntry_other (m : List (Nat × ℚ)) (k k2 : Nat) (v : Option ℚ)
    (h : k2 ≠ k) : (setEntry m k v).lookup k2 = m.lookup k2 := by
  cases v with
  | none => exact lookup_filter_ne_other m k k2 h
  | some t =>
    rw [setEntry, List.lookup, show (k2 == k) = false by simpa using h]
    exact lookup_filter_ne_other m k k2 h

theorem lookup_foldl_setEntry_of_forall_ne (f : TrackedBall → Option ℚ) (k : Nat) :
    ∀ (l : List TrackedBall) (m : List (Nat × ℚ)), (∀ b ∈ l, b.id ≠ k) →
      (l.foldl (fun m b => setEntry m b.id (f b)) m).lookup k = m.lookup k := by
  intro l
  induction l with
  | nil => intro m _; rfl
  | cons a rest ih =>
    intro m hne
    rw [List.foldl_cons, ih _ (fun b hb => hne b (List.mem_cons_of_mem a hb))]
    exact lookup_setEntry_other m a.id k (f a) (fun hk => hne a (List.mem_cons_self a rest) hk.symm)

theorem lookup_foldl_setEntry_of_mem (f : TrackedBall → Option ℚ) (b : TrackedBall) :
    ∀ (l : List TrackedBall) (m : List (Nat × ℚ)), (l.map TrackedBall.id).Nodup →
      b ∈ l → (l.foldl (fun m b2 => setEntry m b2.id (f b2)) m).lookup b.id = f b := by
  intro l
  induction l with
  | nil => intro m _ hb; exact absurd hb (List.not_mem_nil b)
  | cons a rest ih =>
    intro m hnd hb
    have hnd2 : a.id ∉ rest.map TrackedBall.id ∧ (rest.map TrackedBall.id).Nodup := by
      rw [List.map_cons, List.nodup_cons] at hnd
      exact hnd
    rcases List.mem_cons.mp hb with hba | hbr
    · subst hba
      rw [List.foldl_cons]
      have hall : ∀ b2 ∈ rest, b2.id ≠ b.id := by
        intro b2 hb2 heq
        exact hnd2.1 (heq ▸ List.mem_map_of_mem TrackedBall.id hb2)
      rw [lookup_foldl_setEntry_of_forall_ne f b.id rest _ hall]
      exact lookup_setEntry_self m b.id (f b)
    · rw [List.foldl_cons]
      exact ih _ hnd2.2 hbr

/-- C8: off-screen cleanup respects the grace period. For a ball `b`
in the manager's list (with distinct ball identities): (1) when `b` is
off-screen and not yet tracked, it is kept and registered at `now`;
(2) when `b` is off-screen and tracked for at most the grace period,
it is kept; (3) when `b` is off-screen and tracked for more than the
grace period, it is removed from the ball list (receiving no further
updates) and its body is destroyed; (4) when `b` is back on screen it
is kept and its off-screen timer is reset (its entry is deleted). -/
theorem offScreenCleanupGrace (s : CleanupState) (now : ℚ) (b : TrackedBall)
    (hmem : b ∈ s.balls) (hnd : (s.balls.map TrackedBall.id).Nodup) :
    (isOffScreen b.posX b.posY = true → s.offScreenBalls.lookup b.id = none →
      b ∈ (cleanup now s).balls ∧
        (cleanup now s).offScreenBalls.lookup b.id = some now) ∧
    (∀ t0 : ℚ, isOffScreen b.posX b.posY = true →
      s.offScreenBalls.lookup b.id = some t0 → ¬(now - t0 > gracePeriod) →
      b ∈ (cleanup now s).balls) ∧
    (∀ t0 : ℚ, isOffScreen b.posX b.posY = true →
      s.offScreenBalls.lookup b.id = some t0 → now - t0 > gracePeriod →
      b ∉ (cleanup now s).balls ∧ b.id ∈ (cleanup now s).destroyed) ∧
    (isOffScreen b.posX b.posY = false →
      b ∈ (cleanup now s).balls ∧
        (cleanup now s).offScreenBalls.lookup b.id = none) := by
  have hmap : ∀ v, (cleanupBallStep now (s.offScreenBalls.lookup b.id) b.posX b.posY).entry = v →
      (cleanup now s).offScreenBalls.lookup b.id = v := by
    intro v hv
    rw [cleanup]
    rw [lookup_foldl_setEntry_of_mem
      (fun b2 => (cleanupBallStep now (s.offScreenBalls.lookup b2.id) b2.posX b2.posY).entry)
      b s.balls s.offScreenBalls hnd hmem]
    exact hv
  refine ⟨?_, ?_, ?_, ?_⟩
  · intro hoff hnone
    constructor
    · rw [cleanup]
      exact List.mem_filter.mpr ⟨hmem, by simp [cleanupBallStep, hoff, hnone]⟩
    · exact hmap _ (by simp [cleanupBallStep, hoff, hnone])
  · intro t0 hoff hsome hgrace
    rw [cleanup]
    exact List.mem_filter.mpr ⟨hmem, by simp [cleanupBallStep, hoff, hsome, hgrace]⟩
  · intro t0 hoff hsome hgrace
    constructor
    · intro hin
      rw [cleanup] at hin
      have hkeep := (List.mem_filter.mp hin).2
      simp [cleanupBallStep, hoff, hsome, hgrace] at hkeep
    · rw [cleanup]
      refine List.mem_append_right _ ?_
      exact List.mem_map_of_mem TrackedBall.id
        (List.mem_filter.mpr ⟨hmem, by simp [cleanupBallStep, hoff, hsome, hgrace]⟩)
  · intro hon
    constructor
    · rw [cleanup]
      exact List.mem_filter.mpr ⟨hmem, by simp [cleanupBallStep, hon]⟩
    · exact hmap _ (by simp [cleanupBallStep, hon])

/-- Witness for C8: one off-screen ball already tracked for 3001 ms is
destroyed, evaluated concretely. -/
theorem offScreenCleanupGrace_witness :
    ((⟨7, 0, 1000⟩ : TrackedBall) ∈
      ([⟨7, 0, 1000⟩] : List TrackedBall) ∧
      (([⟨7, 0, 1000⟩] : List TrackedBall).map TrackedBall.id).Nodup ∧
      isOffScreen (0 : ℚ) 1000 = true ∧
      ([((7 : Nat), (0 : ℚ))] : List (Nat × ℚ)).lookup 7 = some 0 ∧
      (3001 : ℚ) - 0 > gracePeriod) ∧
    ((⟨7, 0, 1000⟩ : TrackedBall) ∉
      (cleanup 3001 ⟨[⟨7, 0, 1000⟩], [(7, 0)], []⟩).balls ∧
      (7 : Nat) ∈ (cleanup 3001 ⟨[⟨7, 0, 1000⟩], [(7, 0)], []⟩).destroyed) :=
  ⟨⟨by decide, by decide, by norm_num [isOffScreen, canvasHeight, maxOffScreenDistance,
      canvasWidth], by decide, by norm_num [gracePeriod]⟩,
   (offScreenCleanupGrace ⟨[⟨7, 0, 1000⟩], [(7, 0)], []⟩ 3001 ⟨7, 0, 1000⟩
      (by decide) (by decide)).2.2.1 0
      (by norm_num [isOffScreen, canvasHeight, maxOffScreenDistance, canvasWidth])
      (by decide) (by norm_num [gracePeriod])⟩

end BallJs

namespace SceneJs

theorem processBallBallPair_false (vd : Nat → Bool) (p : EvtPair) (i : Nat)
    (h : vd i = false) : processBallBallPair vd p i = false := by
  unfold processBallBallPair
  by_cases hb : p.bodyA.label = "ball" ∧ p.bodyB.label = "ball"
  · rw [if_pos hb]
    by_cases hi : i = p.bodyA.owner ∨ i = p.bodyB.owner
    · simp [hi]
    · simp [hi, h]
  · rw [if_neg hb]
    exact h

theorem foldl_processBallBallPair_false (pairs : List EvtPair) :
    ∀ (vd : Nat → Bool) (i : Nat), vd i = false →
      ballBallCollisionStart vd pairs i = false := by
  induction pairs with
  | nil => intro vd i h; exact h
  | cons p rest ih =>
    intro vd i h
    rw [ballBallCollisionStart, List.foldl_cons]
    exact ih _ i (processBallBallPair_false vd p i h)

/-- C3: whenever a `collisionStart` event contains a pair whose two
bodies are both labeled `ball`, then immediately after the handler has
processed the event, `verticalDrop` is `false` on both owning Ball
objects. -/
theorem ballBallContactClearsVerticalDrop (vd : Nat → Bool) (pairs : List EvtPair)
    (p : EvtPair) (hp : p ∈ pairs)
    (ha : p.bodyA.label = "ball") (hb : p.bodyB.label = "ball") :
    ballBallCollisionStart vd pairs p.bodyA.owner = false ∧
    ballBallCollisionStart vd pairs p.bodyB.owner = false := by
  induction pairs generalizing vd with
  | nil => exact absurd hp (List.not_mem_nil p)
  | cons q rest ih =>
    rcases List.mem_cons.mp hp with hpq | hpr
    · subst hpq
      have hA : processBallBallPair vd p p.bodyA.owner = false := by
        unfold processBallBallPair
        rw [if_pos ⟨ha, hb⟩, if_pos (Or.inl rfl)]
      have hB : processBallBallPair vd p p.bodyB.owner = false := by
        unfold processBallBallPair
        rw [if_pos ⟨ha, hb⟩, if_pos (Or.inr rfl)]
      rw [ballBallCollisionStart, List.foldl_cons]
      exact ⟨foldl_processBallBallPair_false rest _ _ hA,
             foldl_processBallBallPair_false rest _ _ hB⟩
    · rw [ballBallCollisionStart, List.foldl_cons]
      exact ih _ hpr

/-- Witness for C3: an event with one ball–ball pair (owners 1 and 2),
starting from `verticalDrop` true everywhere. -/
theorem ballBallContactClearsVerticalDrop_witness :
    ((⟨⟨"ball", 1⟩, ⟨"ball", 2⟩⟩ : EvtPair) ∈
        [(⟨⟨"ball", 1⟩, ⟨"ball", 2⟩⟩ : EvtPair)] ∧
      (⟨⟨"ball", 1⟩, ⟨"ball", 2⟩⟩ : EvtPair).bodyA.label = "ball" ∧
      (⟨⟨"ball", 1⟩, ⟨"ball", 2⟩⟩ : EvtPair).bodyB.label = "ball") ∧
    (ballBallCollisionStart (fun _ => true)
        [⟨⟨"ball", 1⟩, ⟨"ball", 2⟩⟩]
        (⟨⟨"ball", 1⟩, ⟨"ball", 2⟩⟩ : EvtPair).bodyA.owner = false ∧
      ballBallCollisionStart (fun _ => true)
        [⟨⟨"ball", 1⟩, ⟨"ball", 2⟩⟩]
        (⟨⟨"ball", 1⟩, ⟨"ball", 2⟩⟩ : EvtPair).bodyB.owner = false) :=
  ⟨⟨by decide, by decide, by decide⟩,
   ballBallContactClearsVerticalDrop (fun _ => true) _ _
     (List.mem_singleton.mpr rfl) (by decide) (by decide)⟩

end SceneJs

namespace PlanckPhys

/-- C9: creating any body before the world is initialized raises an
error (never a silent no-op), and creating any body after the world is
set raises no such error. -/
theorem createBeforeWorldFails :
    (∀ (x y radius : ℚ) (options : BodyOptions),
      createCircle none x y radius options = Except.error worldNotSetMsg) ∧
    (∀ (x y width height : ℚ) (options : BodyOptions),
      createRectangle none x y width height options = Except.error worldNotSetMsg) ∧
    (∀ (w : PlanckWorld) (x y radius : ℚ) (options : BodyOptions),
      ∃ b : PhysicsBody, createCircle (some w) x y radius options = Except.ok b) ∧
    (∀ (w : PlanckWorld) (x y width height : ℚ) (options : BodyOptions),
      ∃ b : PhysicsBody, createRectangle (some w) x y width height options = Except.ok b) := by
  refine ⟨fun x y r o => rfl, fun x y w h o => rfl, ?_, ?_⟩
  · intro w x y r o
    exact ⟨_, rfl⟩
  · intro w x y wd ht o
    exact ⟨_, rfl⟩

end PlanckPhys

namespace Part011

/-- C4 counterexample: a ball hitting a *wall* (body labeled
`leftWall`) with pre-collision velocity `(1/2, 10)` satisfies the
claimed classification condition `|vx| < max(1, 0.1·|vy|)`, yet the
handler leaves its horizontal velocity unchanged (nonzero), because
the source only matches bodies labeled `ground`, not walls. -/
theorem verticalCollisionWallCounterexample :
    (collisionStartPair ⟨"ball", 1 / 2, 10⟩ ⟨"leftWall", 0, 0⟩).1.velX = 1 / 2 ∧
    ((1 : ℚ) / 2) < max 1 (|(10 : ℚ)| * (1 / 10)) ∧
    ¬(collisionStartPair ⟨"ball", 1 / 2, 10⟩ ⟨"leftWall", 0, 0⟩).1.velX = 0 := by
  have hnog : collisionStartPair ⟨"ball", 1 / 2, 10⟩ ⟨"leftWall", 0, 0⟩ =
      (⟨"ball", 1 / 2, 10⟩, ⟨"leftWall", 0, 0⟩) := by
    unfold collisionStartPair
    rw [if_neg (by decide)]
  refine ⟨?_, by norm_num, ?_⟩
  · rw [hnog]
  · rw [hnog]
    norm_num

/-- C4 (amended): on contact start between a body labeled `ball` and
the ground body (walls are not handled), the collision is classified
vertical exactly when `|vx| < max(1, 0.1·|vy|)`; when so classified
the ball's horizontal velocity is set to `0` and its vertical velocity
is preserved; when not classified, the ball is untouched; a pair with
a wall instead of the ground is untouched. -/
theorem verticalCollisionDetection (ball bnd : CollBody)
    (hball : ball.label = "ball") :
    (bnd.label = "ground" →
      ((isVerticalCollision ball.velX ball.velY = true ↔
          |ball.velX| < max 1 (|ball.velY| * (1 / 10))) ∧
       (isVerticalCollision ball.velX ball.velY = true →
          (collisionStartPair ball bnd).1.velX = 0 ∧
          (collisionStartPair ball bnd).1.velY = ball.velY ∧
          (collisionStartPair bnd ball).2.velX = 0 ∧
          (collisionStartPair bnd ball).2.velY = ball.velY) ∧
       (isVerticalCollision ball.velX ball.velY = false →
          (collisionStartPair ball bnd).1 = ball ∧
          (collisionStartPair bnd ball).2 = ball))) ∧
    (bnd.label ≠ "ground" → ball.label ≠ "ground" →
      collisionStartPair ball bnd = (ball, bnd)) := by
  constructor
  · intro hg
    have hgb : ¬bnd.label = "ball" := by rw [hg]; decide
    have e1 : collisionStartPair ball bnd = (applyVerticalZero ball, bnd) := by
      unfold collisionStartPair
      rw [if_pos (Or.inr hg), if_pos hball]
    have e2 : collisionStartPair bnd ball = (bnd, applyVerticalZero ball) := by
      unfold collisionStartPair
      rw [if_pos (Or.inl hg), if_neg hgb, if_pos hball]
    refine ⟨by simp [isVerticalCollision], ?_, ?_⟩
    · intro hvert
      have e3 : applyVerticalZero ball = { ball with velX := 0 } := by
        unfold applyVerticalZero
        rw [if_pos hvert]
      rw [e1, e2, e3]
      exact ⟨rfl, rfl, rfl, rfl⟩
    · intro hvert
      have e3 : applyVerticalZero ball = ball := by
        unfold applyVerticalZero
        rw [if_neg (by simp [hvert])]
      rw [e1, e2, e3]
      exact ⟨rfl, rfl⟩
  · intro hg hbg
    unfold collisionStartPair
    rw [if_neg (by simp [hbg, hg])]

/-- Witness for C4 (amended): a straight drop onto the ground at
velocity `(0, 12)` is classified vertical and its horizontal velocity
is zeroed. -/
theorem verticalCollisionDetection_witness :
    ((⟨"ball", 0, 12⟩ : CollBody).label = "ball" ∧
      (⟨"ground", 0, 0⟩ : CollBody).label = "ground" ∧
      isVerticalCollision (0 : ℚ) 12 = true) ∧
    ((collisionStartPair ⟨"ball", 0, 12⟩ ⟨"ground", 0, 0⟩).1.velX = 0 ∧
      (collisionStartPair ⟨"ball", 0, 12⟩ ⟨"ground", 0, 0⟩).1.velY = 12) :=
  ⟨⟨rfl, rfl, by norm_num [isVerticalCollision]⟩,
   by
    have h := ((verticalCollisionDetection ⟨"ball", 0, 12⟩ ⟨"ground", 0, 0⟩ rfl).1
      rfl).2.1 (by norm_num [isVerticalCollision])
    exact ⟨h.1, h.2.1⟩⟩

/-- C5: in the deferred cleanup after a ball–ground contact, (1) if
the contact was classified vertical and the resolved horizontal speed
exceeds 0.001 the horizontal velocity is zeroed again; (2) if the
resolved angular velocity exceeds 0.001 in magnitude while the
pre-collision horizontal speed was below the 0.8 bias threshold (in
particular below 0.001), the angular velocity is zeroed; (3)
consequently, a ball released with zero horizontal velocity (whose
boundary contact is therefore classified vertical) has post-cleanup
horizontal velocity of magnitude at most 0.001. -/
theorem deferredCleanupVertical (preVX preVY : ℚ) (isVert : Bool)
    (postVX postVY postAng : ℚ) :
    (isVert = true → |postVX| > 1 / 1000 →
      (deferredCleanup preVX isVert postVX postVY postAng).1 = 0) ∧
    (|postAng| > 1 / 1000 → |preVX| < 8 / 10 →
      (deferredCleanup preVX isVert postVX postVY postAng).2.2 = 0) ∧
    (preVX = 0 → isVert = isVerticalCollision preVX preVY →
      |(deferredCleanup preVX isVert postVX postVY postAng).1| ≤ 1 / 1000) := by
  refine ⟨?_, ?_, ?_⟩
  · intro hv hx
    unfold deferredCleanup
    dsimp only
    by_cases h4 : |preVX| < 1 / 1000 ∧ |postVX| > 1 / 10
    · rw [if_pos h4]
    · rw [if_neg h4, if_pos ⟨hv, hx⟩]
  · intro ha hpre
    unfold deferredCleanup
    dsimp only
    have hspin : (if |preVX| < 1 / 1000 then true
        else if |preVX| < 8 / 10 then true else false) = true := by
      by_cases h1 : |preVX| < 1 / 1000
      · rw [if_pos h1]
      · rw [if_neg h1, if_pos hpre]
    rw [hspin, if_pos ⟨ha, rfl⟩]
  · intro hpre hiv
    have hvert : isVert = true := by
      rw [hiv, hpre, isVerticalCollision]
      have h1 : |(0 : ℚ)| < max 1 (|preVY| * (1 / 10)) :=
        lt_of_lt_of_le (by norm_num) (le_max_left _ _)
      simp [h1]
    unfold deferredCleanup
    dsimp only
    by_cases hx : |postVX| > 1 / 1000
    · by_cases h4 : |preVX| < 1 / 1000 ∧ |postVX| > 1 / 10
      · rw [if_pos h4]
        norm_num
      · rw [if_neg h4, if_pos ⟨hvert, hx⟩]
        norm_num
    · have h4 : ¬(|preVX| < 1 / 1000 ∧ |postVX| > 1 / 10) := by
        intro hc
        exact hx (lt_trans (by norm_num) hc.2)
      rw [if_neg h4, if_neg (fun hc => hx hc.2)]
      simpa using le_of_not_lt hx

/-- Witness for C5: classification with `preVX = 0, preVY = 9`; the
solver resolves to velocity `(1/4, -5)` with angular velocity `1/50`;
the cleanup zeroes both the horizontal and the angular component. -/
theorem deferredCleanupVertical_witness :
    (isVerticalCollision (0 : ℚ) 9 = true ∧ |(1 / 4 : ℚ)| > 1 / 1000 ∧
      |(1 / 50 : ℚ)| > 1 / 1000 ∧ |(0 : ℚ)| < 8 / 10 ∧ (0 : ℚ) = 0) ∧
    ((deferredCleanup 0 (isVerticalCollision 0 9) (1 / 4) (-5) (1 / 50)).1 = 0 ∧
      (deferredCleanup 0 (isVerticalCollision 0 9) (1 / 4) (-5) (1 / 50)).2.2 = 0 ∧
      |(deferredCleanup 0 (isVerticalCollision 0 9) (1 / 4) (-5) (1 / 50)).1| ≤ 1 / 1000) :=
  ⟨⟨by norm_num [isVerticalCollision], by rw [abs_of_pos] <;> norm_num,
    by rw [abs_of_pos] <;> norm_num, by norm_num, rfl⟩,
   ⟨(deferredCleanupVertical 0 9 (isVerticalCollision 0 9) (1 / 4) (-5) (1 / 50)).1
      (by norm_num [isVerticalCollision]) (by rw [abs_of_pos] <;> norm_num),
    (deferredCleanupVertical 0 9 (isVerticalCollision 0 9) (1 / 4) (-5) (1 / 50)).2.1
      (by rw [abs_of_pos] <;> norm_num) (by norm_num),
    (deferredCleanupVertical 0 9 (isVerticalCollision 0 9) (1 / 4) (-5) (1 / 50)).2.2
      rfl rfl⟩⟩

end Part011

namespace Part006

/-- C6 counterexample: a ball of radius 20 at `x = 36` penetrates the
left wall by 1 unit (the claimed bound is `x ≥ wallThickness + radius
= 37`), but the correction does not fire because the penetration is
within the 2-unit tolerance, so after the step `x` is still 36. -/
theorem boundedPositionCounterexample :
    (enforceBoundariesBody ⟨36, 400, 0, 0, 20, false⟩).posX = 36 ∧
    (36 : ℚ) < wallThickness + 20 := by
  constructor
  · unfold enforceBoundariesBody
    rw [if_neg (by norm_num [wallThickness, tolerance, width, height])]
  · norm_num [wallThickness]

/-- C6 (amended): after `enforceBoundaries`, every dynamic ball's
position satisfies the boundary bounds up to the 2-unit correction
tolerance — `wallThickness + radius - 2 ≤ x ≤ width - wallThickness -
radius + 2` and `y ≤ height - wallThickness - radius + 2` — and when
the left-wall correction fires the position is clamped exactly to the
boundary surface and the velocity is halved. -/
theorem boundedPositionWithTolerance (b : BodyState) (hr : b.radius ≤ 496) :
    (wallThickness + b.radius - tolerance ≤ (enforceBoundariesBody b).posX ∧
     (enforceBoundariesBody b).posX ≤ width - wallThickness - b.radius + tolerance ∧
     (enforceBoundariesBody b).posY ≤ height - wallThickness - b.radius + tolerance) ∧
    (b.posX - b.radius < wallThickness - tolerance →
      (enforceBoundariesBody b).posX = wallThickness + b.radius ∧
      (enforceBoundariesBody b).velX = b.velX * (1 / 2) ∧
      (enforceBoundariesBody b).velY = b.velY * (1 / 2)) := by
  unfold enforceBoundariesBody
  dsimp only
  simp only [wallThickness, tolerance, width, height] at *
  constructor
  · split_ifs <;> (try dsimp only) <;> (try push_neg at *) <;>
      refine ⟨by linarith, by linarith, by linarith⟩
  · intro h1
    rw [if_pos (Or.inl h1)]
    have h2 : ¬b.posX + b.radius > 1024 - 17 + 2 := by push_neg; linarith
    rw [if_neg h2, if_pos h1]
    exact ⟨rfl, rfl, rfl⟩

/-- Witness for C6 (amended): a radius-20 ball at `(10, 900)` with
velocity `(4, 6)`; both the left-wall and the floor corrections fire,
clamping it to `(37, 731)` within the tolerance bounds and halving its
velocity. -/
theorem boundedPositionWithTolerance_witness :
    ((20 : ℚ) ≤ 496 ∧
      (10 : ℚ) - 20 < wallThickness - tolerance) ∧
    ((wallThickness + 20 - tolerance ≤
        (enforceBoundariesBody ⟨10, 900, 4, 6, 20, false⟩).posX ∧
      (enforceBoundariesBody ⟨10, 900, 4, 6, 20, false⟩).posX ≤
        width - wallThickness - 20 + tolerance ∧
      (enforceBoundariesBody ⟨10, 900, 4, 6, 20, false⟩).posY ≤
        height - wallThickness - 20 + tolerance) ∧
    ((enforceBoundariesBody ⟨10, 900, 4, 6, 20, false⟩).posX = wallThickness + 20 ∧
      (enforceBoundariesBody ⟨10, 900, 4, 6, 20, false⟩).velX = 4 * (1 / 2) ∧
      (enforceBoundariesBody ⟨10, 900, 4, 6, 20, false⟩).velY = 6 * (1 / 2))) :=
  ⟨⟨by norm_num, by norm_num [wallThickness, tolerance]⟩,
   ⟨(boundedPositionWithTolerance ⟨10, 900, 4, 6, 20, false⟩ (by norm_num)).1,
    (boundedPositionWithTolerance ⟨10, 900, 4, 6, 20, false⟩ (by norm_num)).2
      (by norm_num [wallThickness, tolerance])⟩⟩

end Part006

namespace Part011

theorem scaled_mag (vx vy c : ℝ) (hc : 0 < c) (h : vx * vx + vy * vy > c * c) :
    (vx * (c / Real.sqrt (vx * vx + vy * vy))) * (vx * (c / Real.sqrt (vx * vx + vy * vy))) +
    (vy * (c / Real.sqrt (vx * vx + vy * vy))) * (vy * (c / Real.sqrt (vx * vx + vy * vy)))
      = c * c := by
  have hm0 : (0 : ℝ) ≤ vx * vx + vy * vy :=
    add_nonneg (mul_self_nonneg vx) (mul_self_nonneg vy)
  have hmpos : (0 : ℝ) < vx * vx + vy * vy := lt_trans (mul_pos hc hc) h
  have hmne : vx * vx + vy * vy ≠ 0 := ne_of_gt hmpos
  have hsq : Real.sqrt (vx * vx + vy * vy) * Real.sqrt (vx * vx + vy * vy)
      = vx * vx + vy * vy := Real.mul_self_sqrt hm0
  have expand :
      (vx * (c / Real.sqrt (vx * vx + vy * vy))) *
        (vx * (c / Real.sqrt (vx * vx + vy * vy))) +
      (vy * (c / Real.sqrt (vx * vx + vy * vy))) *
        (vy * (c / Real.sqrt (vx * vx + vy * vy)))
      = (vx * vx + vy * vy) *
        ((c / Real.sqrt (vx * vx + vy * vy)) * (c / Real.sqrt (vx * vx + vy * vy))) := by
    ring
  rw [expand, div_mul_div_comm, hsq]
  field_simp

/-- C7: after each physics step, every dynamic ball whose speed
exceeds the high-speed threshold 18 has its velocity scaled by the
fixed factor 0.9 by `handleMassImbalancedCollisions`, and after the
per-update velocity clamp (`clampVelocities`, `maxVelocity = 30`) no
dynamic ball's speed exceeds the clamp constant — in particular this
holds for any post-collision velocity of a head-on small/large ball
collision. -/
theorem massImbalanceDampeningAndClamp :
    (∀ vx vy : ℝ, Real.sqrt (vx * vx + vy * vy) > 18 →
      handleMassImbalancedVel vx vy = (vx * (9 / 10), vy * (9 / 10))) ∧
    (∀ vx vy : ℝ,
      Real.sqrt
        ((PhysicsJs.clampVelocities vx vy).1 * (PhysicsJs.clampVelocities vx vy).1 +
         (PhysicsJs.clampVelocities vx vy).2 * (PhysicsJs.clampVelocities vx vy).2) ≤ 30) := by
  constructor
  · intro vx vy h
    unfold handleMassImbalancedVel
    rw [if_pos h]
  · intro vx vy
    by_cases h : vx * vx + vy * vy > 30 * 30
    · have e : PhysicsJs.clampVelocities vx vy =
          (vx * (30 / Real.sqrt (vx * vx + vy * vy)),
           vy * (30 / Real.sqrt (vx * vx + vy * vy))) := by
        unfold PhysicsJs.clampVelocities
        rw [if_pos h]
      rw [e]
      dsimp only
      rw [scaled_mag vx vy 30 (by norm_num) h]
      rw [show (30 : ℝ) * 30 = 30 ^ 2 by ring, Real.sqrt_sq (by norm_num)]
    · have e : PhysicsJs.clampVelocities vx vy = (vx, vy) := by
        unfold PhysicsJs.clampVelocities
        rw [if_neg h]
      rw [e]
      dsimp only
      calc Real.sqrt (vx * vx + vy * vy) ≤ Real.sqrt (30 * 30) :=
            Real.sqrt_le_sqrt (le_of_not_lt h)
        _ = 30 := by
            rw [show (30 : ℝ) * 30 = 30 ^ 2 by ring, Real.sqrt_sq (by norm_num)]

/-- Witness for C7: a ball at velocity `(20, 0)` (speed 20 > 18) is
scaled to `(18, 0)`. -/
theorem massImbalanceDampeningAndClamp_witness :
    Real.sqrt ((20 : ℝ) * 20 + 0 * 0) > 18 ∧
    handleMassImbalancedVel 20 0 = (20 * (9 / 10), 0 * (9 / 10)) := by
  have hs : Real.sqrt ((20 : ℝ) * 20 + 0 * 0) = 20 := by
    rw [show ((20 : ℝ) * 20 + 0 * 0) = 20 ^ 2 by norm_num]
    exact Real.sqrt_sq (by norm_num)
  constructor
  · rw [hs]; norm_num
  · exact massImbalanceDampeningAndClamp.1 20 0 (by rw [hs]; norm_num)

theorem precise_highSpeed (vx vy angVel : ℝ) (h : vx * vx + vy * vy > 20 * 20) :
    clampVelocitiesPrecise vx vy angVel =
      (vx * (20 / Real.sqrt (vx * vx + vy * vy)),
       vy * (20 / Real.sqrt (vx * vx + vy * vy)), angVel) := by
  unfold clampVelocitiesPrecise
  dsimp only
  rw [if_neg, if_pos h]
  intro hc
  have := hc.2.2
  nlinarith

theorem precise_id_region (vx vy angVel : ℝ)
    (h1 : (1 / 100) * (1 / 100) ≤ vx * vx + vy * vy)
    (h2 : vx * vx + vy * vy ≤ 20 * 20) :
    clampVelocitiesPrecise vx vy angVel = (vx, vy, angVel) := by
  unfold clampVelocitiesPrecise
  dsimp only
  rw [if_neg (fun hc => absurd hc.2.2 (not_lt.mpr h1)),
    if_neg (not_lt.mpr h2), if_neg (fun hc => absurd hc.2 (not_lt.mpr h1))]

theorem precise_small (vx vy angVel : ℝ) (h : vx * vx + vy * vy < (1 / 100) * (1 / 100)) :
    clampVelocitiesPrecise vx vy angVel =
      (0, 0, if 0 < |angVel| ∧ |angVel| < 1 / 100 then 0 else angVel) := by
  have hm0 : (0 : ℝ) ≤ vx * vx + vy * vy :=
    add_nonneg (mul_self_nonneg vx) (mul_self_nonneg vy)
  have hv1 : (if 0 < vx * vx + vy * vy ∧ vx * vx + vy * vy < (1 / 100) * (1 / 100)
      then ((0 : ℝ), (0 : ℝ)) else (vx, vy)) = (0, 0) := by
    by_cases hp : 0 < vx * vx + vy * vy
    · rw [if_pos ⟨hp, h⟩]
    · have hz : vx * vx + vy * vy = 0 := le_antisymm (le_of_not_lt hp) hm0
      have hvx : vx = 0 := by nlinarith
      have hvy : vy = 0 := by nlinarith
      rw [if_neg (fun hc => hp hc.1), hvx, hvy]
  unfold clampVelocitiesPrecise
  dsimp only
  by_cases ha : 0 < |angVel| ∧ |angVel| < 1 / 100
  · rw [if_pos ⟨ha.1, ha.2, h⟩, if_pos ha, hv1]
  · rw [if_neg (fun hc => ha ⟨hc.1, hc.2.1⟩), if_neg (by nlinarith), if_neg ha, hv1]

/-- C10 counterexample: in the part_011 `clampVelocities`, a ball with
velocity `(1/200, 0)` — speed `1/200 ≤ maxVelocity = 20` — is *not*
left unchanged: its positive sub-rest-threshold velocity is zeroed, so
the claim's "for every ball whose speed is at most maxVelocity, its
velocity is left unchanged by the clamp" fails. -/
theorem clampUnchangedCounterexample :
    (clampVelocitiesPrecise (1 / 200) 0 0).1 = 0 ∧
    ((1 : ℝ) / 200) ≠ 0 ∧
    Real.sqrt ((1 / 200 : ℝ) * (1 / 200) + 0 * 0) ≤ 20 := by
  refine ⟨?_, by norm_num, ?_⟩
  · rw [precise_small (1 / 200) 0 0 (by norm_num)]
  · rw [show ((1 / 200 : ℝ) * (1 / 200) + 0 * 0) = (1 / 200) ^ 2 by ring,
      Real.sqrt_sq (by norm_num)]
    norm_num

/-- C10 (amended): the over-max branch of both `clampVelocities`
variants is direction-preserving — a velocity whose squared magnitude
exceeds `maxVelocity²` is replaced by the same vector scaled by the
positive scalar `maxVelocity / speed`, yielding speed exactly
`maxVelocity` — and both variants are idempotent. The physics.js
variant leaves any velocity with speed at most 30 unchanged; the
part_011 variant leaves a velocity unchanged only when its squared
magnitude also reaches the rest threshold `0.01²` (below it, a
positive velocity is zeroed rather than left unchanged). -/
theorem clampVelocitiesAlgebra :
    (∀ vx vy : ℝ, vx * vx + vy * vy > 30 * 30 →
      PhysicsJs.clampVelocities vx vy =
        (vx * (30 / Real.sqrt (vx * vx + vy * vy)),
         vy * (30 / Real.sqrt (vx * vx + vy * vy))) ∧
      0 < 30 / Real.sqrt (vx * vx + vy * vy) ∧
      Real.sqrt
        ((PhysicsJs.clampVelocities vx vy).1 * (PhysicsJs.clampVelocities vx vy).1 +
         (PhysicsJs.clampVelocities vx vy).2 * (PhysicsJs.clampVelocities vx vy).2) = 30) ∧
    (∀ vx vy : ℝ, vx * vx + vy * vy ≤ 30 * 30 →
      PhysicsJs.clampVelocities vx vy = (vx, vy)) ∧
    (∀ vx vy : ℝ,
      PhysicsJs.clampVelocities (PhysicsJs.clampVelocities vx vy).1
        (PhysicsJs.clampVelocities vx vy).2 = PhysicsJs.clampVelocities vx vy) ∧
    (∀ vx vy angVel : ℝ, vx * vx + vy * vy > 20 * 20 →
      clampVelocitiesPrecise vx vy angVel =
        (vx * (20 / Real.sqrt (vx * vx + vy * vy)),
         vy * (20 / Real.sqrt (vx * vx + vy * vy)), angVel) ∧
      0 < 20 / Real.sqrt (vx * vx + vy * vy)) ∧
    (∀ vx vy angVel : ℝ, (1 / 100) * (1 / 100) ≤ vx * vx + vy * vy →
      vx * vx + vy * vy ≤ 20 * 20 →
      clampVelocitiesPrecise vx vy angVel = (vx, vy, angVel)) ∧
    (∀ vx vy angVel : ℝ,
      clampVelocitiesPrecise (clampVelocitiesPrecise vx vy angVel).1
        (clampVelocitiesPrecise vx vy angVel).2.1
        (clampVelocitiesPrecise vx vy angVel).2.2 = clampVelocitiesPrecise vx vy angVel) := by
  have hclamp30 : ∀ vx vy : ℝ, vx * vx + vy * vy > 30 * 30 →
      PhysicsJs.clampVelocities vx vy =
        (vx * (30 / Real.sqrt (vx * vx + vy * vy)),
         vy * (30 / Real.sqrt (vx * vx + vy * vy))) := by
    intro vx vy h
    unfold PhysicsJs.clampVelocities
    rw [if_pos h]
  have hid30 : ∀ vx vy : ℝ, vx * vx + vy * vy ≤ 30 * 30 →
      PhysicsJs.clampVelocities vx vy = (vx, vy) := by
    intro vx vy h
    unfold PhysicsJs.clampVelocities
    rw [if_neg (not_lt.mpr h)]
  refine ⟨?_, hid30, ?_, ?_, precise_id_region, ?_⟩
  · intro vx vy h
    have hspos : 0 < Real.sqrt (vx * vx + vy * vy) :=
      Real.sqrt_pos.mpr (lt_trans (by norm_num) h)
    refine ⟨hclamp30 vx vy h, div_pos (by norm_num) hspos, ?_⟩
    rw [hclamp30 vx vy h]
    dsimp only
    rw [scaled_mag vx vy 30 (by norm_num) h]
    rw [show (30 : ℝ) * 30 = 30 ^ 2 by ring, Real.sqrt_sq (by norm_num)]
  · intro vx vy
    by_cases h : vx * vx + vy * vy > 30 * 30
    · rw [hclamp30 vx vy h]
      dsimp only
      rw [hid30 _ _ (le_of_eq (scaled_mag vx vy 30 (by norm_num) h))]
    · rw [hid30 vx vy (le_of_not_lt h)]
      dsimp only
      exact hid30 vx vy (le_of_not_lt h)
  · intro vx vy angVel h
    have hspos : 0 < Real.sqrt (vx * vx + vy * vy) :=
      Real.sqrt_pos.mpr (lt_trans (by norm_num) h)
    exact ⟨precise_highSpeed vx vy angVel h, div_pos (by norm_num) hspos⟩
  · intro vx vy angVel
    rcases lt_trichotomy (vx * vx + vy * vy) ((1 / 100) * (1 / 100)) with hlo | heq | hhi
    · rw [precise_small vx vy angVel hlo]
      dsimp only
      rw [precise_small 0 0 _ (by norm_num)]
      by_cases ha : 0 < |angVel| ∧ |angVel| < 1 / 100
      · rw [if_pos ha]
        simp
      · rw [if_neg ha, if_neg ha]
    · have hge : (1 / 100 : ℝ) * (1 / 100) ≤ vx * vx + vy * vy := le_of_eq heq.symm
      have hle : vx * vx + vy * vy ≤ 20 * 20 := by nlinarith
      rw [precise_id_region vx vy angVel hge hle]
      dsimp only
      exact precise_id_region vx vy angVel hge hle
    · by_cases hmax : vx * vx + vy * vy > 20 * 20
      · rw [precise_highSpeed vx vy angVel hmax]
        dsimp only
        have hmag := scaled_mag vx vy 20 (by norm_num) hmax
        exact precise_id_region _ _ _ (le_of_le_of_eq (by norm_num) hmag.symm)
          (le_of_eq hmag)
      · rw [precise_id_region vx vy angVel (le_of_lt hhi) (le_of_not_lt hmax)]
        dsimp only
        exact precise_id_region vx vy angVel (le_of_lt hhi) (le_of_not_lt hmax)

/-- Witness for C10 (amended): the over-max branch at `(30, 40)`, the
identity branch at `(3, 4)`, and the part_011 identity region at
`(1, 0)` with angular velocity 5. -/
theorem clampVelocitiesAlgebra_witness :
    ((30 : ℝ) * 30 + 40 * 40 > 30 * 30 ∧
      PhysicsJs.clampVelocities 30 40 =
        (30 * (30 / Real.sqrt (30 * 30 + 40 * 40)),
         40 * (30 / Real.sqrt (30 * 30 + 40 * 40)))) ∧
    ((3 : ℝ) * 3 + 4 * 4 ≤ 30 * 30 ∧ PhysicsJs.clampVelocities 3 4 = (3, 4)) ∧
    ((1 / 100 : ℝ) * (1 / 100) ≤ 1 * 1 + 0 * 0 ∧ (1 : ℝ) * 1 + 0 * 0 ≤ 20 * 20 ∧
      clampVelocitiesPrecise 1 0 5 = (1, 0, 5)) :=
  ⟨⟨by norm_num, (clampVelocitiesAlgebra.1 30 40 (by norm_num)).1⟩,
   ⟨by norm_num, clampVelocitiesAlgebra.2.1 3 4 (by norm_num)⟩,
   ⟨by norm_num, by norm_num,
    clampVelocitiesAlgebra.2.2.2.2.1 1 0 5 (by norm_num) (by norm_num)⟩⟩

end Part011
